import Mathlib

/-!
Verification development for the joint model of
`phobos/model/joints.py`: constraint-set building, joint-type
classification, limits/dynamics metadata handling and joint-state
extraction.

The Blender/`bpy`/`mathutils` host is modelled explicitly: a link object
carries its pose-bone constraint list, its custom properties (metadata),
its edit-bone geometry and its pose matrix.  Numeric values are rationals
(the code performs only comparisons, copies and defaulting on them, never
rounding-sensitive arithmetic).  External host services (resource lookup,
vector normalisation, the rigid-body world) are collected in an `Env`
record of parameters.
-/

/-- Three-component vector (stand-in for `mathutils.Vector` of length 3). -/
structure Vec3 where
  x : ℚ
  y : ℚ
  z : ℚ
deriving DecidableEq

def vadd (a b : Vec3) : Vec3 := ⟨a.x + b.x, a.y + b.y, a.z + b.z⟩

def vsub (a b : Vec3) : Vec3 := ⟨a.x - b.x, a.y - b.y, a.z - b.z⟩

def vsmul (c : ℚ) (v : Vec3) : Vec3 := ⟨c * v.x, c * v.y, c * v.z⟩

/-- `mathutils.Vector.length == 0.` holds exactly when every component
is zero (the Euclidean norm of a real vector vanishes iff all components
do), which is how the test is modelled in exact rational arithmetic. -/
def vecLenSqZero (v : Vec3) : Bool :=
  v.x == 0 && v.y == 0 && v.z == 0

/-- A custom-property value stored on a Blender object: the joint code
stores strings, numbers and coefficient lists. -/
inductive PropVal where
  | str : String → PropVal
  | num : ℚ → PropVal
  | numList : List ℚ → PropVal
deriving DecidableEq

/-- Modelled from the spec: the logging collaborator
(`phobos.phoboslog.log`, repository code outside the sources given here)
records structured diagnostics of severity plus message; modelled as
accumulation of entries into a returned list. -/
structure LogEntry where
  msg : String
  level : String
deriving DecidableEq

/-- Blender `LIMIT_LOCATION` bone constraint.  A freshly added constraint
has all enable flags off, all bounds `0.0` and world owner space. -/
structure LimitLocation where
  use_min_x : Bool := false
  use_min_y : Bool := false
  use_min_z : Bool := false
  use_max_x : Bool := false
  use_max_y : Bool := false
  use_max_z : Bool := false
  min_x : ℚ := 0
  min_y : ℚ := 0
  min_z : ℚ := 0
  max_x : ℚ := 0
  max_y : ℚ := 0
  max_z : ℚ := 0
  owner_space : String := "WORLD"
deriving DecidableEq

/-- Blender `LIMIT_ROTATION` bone constraint, defaults as above. -/
structure LimitRotation where
  use_limit_x : Bool := false
  use_limit_y : Bool := false
  use_limit_z : Bool := false
  min_x : ℚ := 0
  min_y : ℚ := 0
  min_z : ℚ := 0
  max_x : ℚ := 0
  max_y : ℚ := 0
  max_z : ℚ := 0
  owner_space : String := "WORLD"
deriving DecidableEq

/-- A pose-bone constraint, as found in `joint.pose.bones[0].constraints`. -/
inductive Constraint where
  | loc : LimitLocation → Constraint
  | rot : LimitRotation → Constraint
deriving DecidableEq

/-- The `type` attribute of a constraint. -/
def ctypeOf : Constraint → String
  | .loc _ => "LIMIT_LOCATION"
  | .rot _ => "LIMIT_ROTATION"

/-- The link (armature object) a joint lives on: `name`, `phobostype`,
the single pose bone with its constraint list and `matrix_basis`, the
custom-property (metadata) store, the edit-bone geometry, the bone vector
`data.bones[0].vector`, the rigid-body-constraint spring fields written by
the dynamics block, and the visualization `custom_shape`. -/
structure Link where
  name : String
  phobostype : String
  constraints : List Constraint
  props : List (String × PropVal)
  matrix_basis : List (List ℚ)
  bone_vector : Vec3
  editbone_head : Vec3
  editbone_tail : Vec3
  rbc_spring_stiffness_y : Option ℚ := none
  rbc_spring_damping_y : Option ℚ := none
  custom_shape : Option String := none
deriving DecidableEq

/-- Assignment `obj[key] = value` to Blender custom properties: overwrites
the binding for `key`, keeps all others. -/
def setProp (l : Link) (k : String) (v : PropVal) : Link :=
  { l with props := (k, v) :: l.props.filter (fun kv => !(kv.1 == k)) }

/-- Read `obj[key]` from the custom-property store (`none` when absent). -/
def getProp (l : Link) (k : String) : Option PropVal :=
  (l.props.find? (fun kv => kv.1 == k)).map (fun kv => kv.2)

/-- Host services external to the repository (Blender scene and
`mathutils` numerics), passed as parameters: presence of a rigid body
world, `ioUtils.getResource`, `Vector.normalized` and `Vector.length`. -/
structure Env where
  hasRigidBodyWorld : Bool
  resource : String → String → Option String
  normalize : Vec3 → Vec3
  norm : Vec3 → ℚ

/-- `bpy.ops.pose.constraint_add` appends a constraint to the bone; the
builders then fetch it through `getJointConstraint` (which returns the
last constraint of the requested type) and configure its fields, so the
net effect is appending the configured record. -/
def addConstraint (joint : Link) (c : Constraint) : Link :=
  { joint with constraints := joint.constraints ++ [c] }

/-- `getJointConstraint`: scan the constraint list keeping the last
constraint whose type matches `ctype`. -/
def getJointConstraint (joint : Link) (ctype : String) : Option Constraint :=
  joint.constraints.foldl (fun con c => if ctypeOf c == ctype then some c else con) none

/-- `set_revolute`: lock all translations, lock rotation x and z to
`(0,0)`, limit rotation y to `(lower, upper)`. -/
def set_revolute (joint : Link) (lower upper : ℚ) : Link :=
  let cloc : LimitLocation :=
    { use_min_x := true, use_min_y := true, use_min_z := true,
      use_max_x := true, use_max_y := true, use_max_z := true,
      owner_space := "LOCAL" }
  let joint := addConstraint joint (.loc cloc)
  let crot : LimitRotation :=
    { use_limit_x := true, min_x := 0, max_x := 0,
      use_limit_y := true, min_y := lower, max_y := upper,
      use_limit_z := true, min_z := 0, max_z := 0,
      owner_space := "LOCAL" }
  addConstraint joint (.rot crot)

/-- `set_continuous`: lock all translations, lock rotation x and z,
leave rotation y unconstrained. -/
def set_continuous (joint : Link) : Link :=
  let cloc : LimitLocation :=
    { use_min_x := true, use_min_y := true, use_min_z := true,
      use_max_x := true, use_max_y := true, use_max_z := true,
      owner_space := "LOCAL" }
  let joint := addConstraint joint (.loc cloc)
  let crot : LimitRotation :=
    { use_limit_x := true, min_x := 0, max_x := 0,
      use_limit_z := true, min_z := 0, max_z := 0,
      owner_space := "LOCAL" }
  addConstraint joint (.rot crot)

/-- `set_prismatic`: lock all translations, then either clear the y
enable flags (when `lower == upper`) or set the y range; lock all
rotations. -/
def set_prismatic (joint : Link) (lower upper : ℚ) : Link :=
  let cloc : LimitLocation :=
    { use_min_x := true, use_min_y := true, use_min_z := true,
      use_max_x := true, use_max_y := true, use_max_z := true }
  let cloc :=
    if lower = upper then { cloc with use_min_y := false, use_max_y := false }
    else { cloc with min_y := lower, max_y := upper }
  let cloc := { cloc with owner_space := "LOCAL" }
  let joint := addConstraint joint (.loc cloc)
  let crot : LimitRotation :=
    { use_limit_x := true, min_x := 0, max_x := 0,
      use_limit_y := true, min_y := 0, max_y := 0,
      use_limit_z := true, min_z := 0, max_z := 0,
      owner_space := "LOCAL" }
  addConstraint joint (.rot crot)

/-- `set_fixed`: lock all translations and all rotations. -/
def set_fixed (joint : Link) : Link :=
  let cloc : LimitLocation :=
    { use_min_x := true, use_min_y := true, use_min_z := true,
      use_max_x := true, use_max_y := true, use_max_z := true,
      owner_space := "LOCAL" }
  let joint := addConstraint joint (.loc cloc)
  let crot : LimitRotation :=
    { use_limit_x := true, min_x := 0, max_x := 0,
      use_limit_y := true, min_y := 0, max_y := 0,
      use_limit_z := true, min_z := 0, max_z := 0,
      owner_space := "LOCAL" }
  addConstraint joint (.rot crot)

/-- `set_planar`: enable only the translational y min and max flags
(bounds stay at the constraint default `0`), lock all rotations. -/
def set_planar (joint : Link) : Link :=
  let cloc : LimitLocation :=
    { use_min_y := true, use_max_y := true, owner_space := "LOCAL" }
  let joint := addConstraint joint (.loc cloc)
  let crot : LimitRotation :=
    { use_limit_x := true, min_x := 0, max_x := 0,
      use_limit_y := true, min_y := 0, max_y := 0,
      use_limit_z := true, min_z := 0, max_z := 0,
      owner_space := "LOCAL" }
  addConstraint joint (.rot crot)

/-- The per-axis translational lock list computed by `getJointType`
(lines 353 to 357): `use_min` flag and `min == max` only, the `use_max`
flag is not consulted. -/
def clocList (c : LimitLocation) : List Bool :=
  [c.use_min_x && (c.min_x == c.max_x),
   c.use_min_y && (c.min_y == c.max_y),
   c.use_min_z && (c.min_z == c.max_z)]

/-- The per-axis active-rotation list computed by `getJointType`
(lines 360 to 364): limit flag set and a nonzero bound. -/
def crotList (c : LimitRotation) : List Bool :=
  [c.use_limit_x && (!(c.min_x == 0) || !(c.max_x == 0)),
   c.use_limit_y && (!(c.min_y == 0) || !(c.max_y == 0)),
   c.use_limit_z && (!(c.min_z == 0) || !(c.max_z == 0))]

/-- `getJointType` restricted to a constraint list: the single loop
keeps the data of the last `LIMIT_LOCATION` and `LIMIT_ROTATION`
constraints, then the decision ladder runs on locked/limited counts.
The fallback value of `jtype` is `"floating"`. -/
def getJointTypeOf (cs : List Constraint) : String × Option (List Bool) :=
  let s := cs.foldl
    (fun (acc : Option (List Bool) × Option LimitRotation) c =>
      match c with
      | .loc cl => (some (clocList cl), acc.2)
      | .rot cr => (acc.1, some cr))
    (none, none)
  let cloc := s.1
  let limrot := s.2
  let crot := limrot.map crotList
  let jtype :=
    match cloc with
    | none => "floating"
    | some l =>
      let ncloc := l.count true
      if ncloc = 3 then
        match limrot with
        | none => "floating"
        | some lr =>
          let ncrot := [lr.use_limit_x, lr.use_limit_y, lr.use_limit_z].count true
          if ncrot = 3 then
            if 0 < (crotList lr).count true then "revolute" else "fixed"
          else if ncrot = 2 then "continuous"
          else "floating"
      else if ncloc = 2 then "prismatic"
      else if ncloc = 1 then "planar"
      else "floating"
  (jtype, crot)

/-- `getJointType(joint)`: classify the constraints on the first (only)
pose bone of the link. -/
def getJointType (joint : Link) : String × Option (List Bool) :=
  getJointTypeOf joint.constraints

/-- `deriveJointType(joint, adjust=False)` returns `getJointType(joint)`
unchanged.  The `@validate` decorator wrapping it lives in repository
code outside the given sources; modelled from the spec, which describes
classification as exactly the `getJointType` decision table with no
adjustment when `adjust` is false. -/
def deriveJointType (joint : Link) : String × Option (List Bool) :=
  getJointType joint

/-- A dictionary argument for an effort/speed approximation, modelled as
an association list so both key presence and key membership tests of the
source are expressible. -/
structure ApproxDict where
  entries : List (String × PropVal)
deriving DecidableEq

/-- Python `d[k]` lookup (first binding; `none` models a `KeyError`). -/
def dictLookup (d : ApproxDict) (k : String) : Option PropVal :=
  (d.entries.find? (fun kv => kv.1 == k)).map (fun kv => kv.2)

/-- Result of `setJointConstraints`: the link as mutated so far, the
accumulated diagnostics, and an uncaught Python exception if one was
raised (writes made before the raise persist on the link). -/
structure SJCResult where
  link : Link
  logs : List LogEntry
  err : Option String
deriving DecidableEq

/-- The spring/damping block of `setJointConstraints` (lines 269 to 284):
for revolute/prismatic with a truthy spring or damping, try to add the
rigid-body spring (logging an error when no rigid body world exists) and
write the four dynamics metadata keys regardless. -/
def sjcDynamics (env : Env) (joint : Link) (jointtype : String)
    (spring damping : ℚ) : Link × List LogEntry :=
  if (jointtype == "revolute" || jointtype == "prismatic")
      && (!(spring == 0) || !(damping == 0)) then
    let s : Link × List LogEntry :=
      if env.hasRigidBodyWorld then
        ({ joint with rbc_spring_stiffness_y := some spring,
                      rbc_spring_damping_y := some damping }, [])
      else
        (joint, [⟨"No Blender Rigid Body World present, only adding custom properties.", "ERROR"⟩])
    let j := setProp s.1 "joint/dynamics/springStiffness" (.num spring)
    let j := setProp j "joint/dynamics/springDamping" (.num damping)
    let j := setProp j "joint/dynamics/spring_const_constraint_axis1" (.num spring)
    let j := setProp j "joint/dynamics/damping_const_constraint_axis1" (.num damping)
    (j, s.2)
  else (joint, [])

/-- The constraint dispatch of `setJointConstraints` (lines 287 to 301):
one builder per recognized type, floating writes nothing, anything else
warns and behaves like floating. -/
def sjcDispatch (joint : Link) (jointtype : String) (lower upper : ℚ) :
    Link × List LogEntry :=
  if jointtype == "revolute" then (set_revolute joint lower upper, [])
  else if jointtype == "continuous" then (set_continuous joint, [])
  else if jointtype == "prismatic" then (set_prismatic joint lower upper, [])
  else if jointtype == "fixed" then (set_fixed joint, [])
  else if jointtype == "floating" then (joint, [])
  else if jointtype == "planar" then (set_planar joint, [])
  else (joint, [⟨"Unknown joint type for joint " ++ joint.name ++ ". Behaviour like floating.", "WARNING"⟩])

/-- One approximation block (lines 307 to 328 for effort, then speed):
the guard is `all(elem in [\x27function\x27, \x27coefficients\x27] for elem in dict)`,
i.e. it checks that every KEY of the dictionary belongs to the two-element
list, not that both required keys are present; inside the branch the two
dictionary lookups can raise `KeyError` (the first one after the
approximation key was already written). -/
def sjcApproxOne (joint : Link) (d : ApproxDict) (keyA keyC errMsg : String) :
    Link × List LogEntry × Option String :=
  if d.entries.all (fun kv => kv.1 == "function" || kv.1 == "coefficients") then
    match dictLookup d "function" with
    | none => (joint, [], some "KeyError: function")
    | some f =>
      let j := setProp joint keyA f
      match dictLookup d "coefficients" with
      | none => (j, [], some "KeyError: coefficients")
      | some c => (setProp j keyC c, [], none)
  else (joint, [⟨errMsg, "ERROR"⟩], none)

/-- One optional approximation argument: Python truthiness skips `None`
and the empty dictionary. -/
def sjcApproxKind (joint : Link) (dOpt : Option ApproxDict)
    (keyA keyC errMsg : String) : Link × List LogEntry × Option String :=
  match dOpt with
  | none => (joint, [], none)
  | some d =>
    if d.entries.isEmpty then (joint, [], none)
    else sjcApproxOne joint d keyA keyC errMsg

/-- The approximation section of `setJointConstraints` (lines 306 to
328): only for revolute/continuous/prismatic; an exception in the effort
block prevents the speed block from running. -/
def sjcApprox (joint : Link) (jointtype : String)
    (ma ms : Option ApproxDict) : Link × List LogEntry × Option String :=
  if jointtype == "revolute" || jointtype == "continuous" || jointtype == "prismatic" then
    let rE := sjcApproxKind joint ma "joint/maxeffort_approximation"
      "joint/maxeffort_coefficients"
      ("Approximation for max effort ill-defined in joint object " ++ joint.name ++ ".")
    match rE.2.2 with
    | some _ => rE
    | none =>
      let rS := sjcApproxKind rE.1 ms "joint/maxspeed_approximation"
        "joint/maxspeed_coefficients"
        ("Approximation for max speed ill-defined in joint object " ++ rE.1.name ++ ".")
      (rS.1, rE.2.1 ++ rS.2.1, rS.2.2)
  else (joint, [], none)

/-- The visualization block (lines 331 to 334): assign the resource
object for the joint type as custom bone shape when one exists. -/
def sjcResource (env : Env) (joint : Link) (jointtype : String) :
    Link × List LogEntry :=
  match env.resource "joint" jointtype with
  | some r => ({ joint with custom_shape := some r },
               [⟨"Assigned resource to " ++ joint.name ++ ".", "DEBUG"⟩])
  | none => (joint, [])

/-- `setJointConstraints(joint, jointtype, lower, upper, spring, damping,
maxeffort_approximation, maxspeed_approximation)`: refuse non-links,
clear the existing constraints, run the spring/damping block, dispatch
the builder, tag `joint/type`, store the approximations (where a
`KeyError` aborts the rest of the call), and finally assign the
visualization resource. -/
def setJointConstraints (env : Env) (joint : Link) (jointtype : String)
    (lower upper spring damping : ℚ)
    (maxeffort_approximation maxspeed_approximation : Option ApproxDict) : SJCResult :=
  if !(joint.phobostype == "link") then
    ⟨joint, [⟨"Cannot set joint constraints. Not a link: " ++ joint.name, "ERROR"⟩], none⟩
  else
    let logs0 : List LogEntry :=
      [⟨"Setting joint constraints at link " ++ joint.name ++ ".", "DEBUG"⟩]
    let j1 : Link := { joint with constraints := [] }
    let d := sjcDynamics env j1 jointtype spring damping
    let dis := sjcDispatch d.1 jointtype lower upper
    let j2 := setProp dis.1 "joint/type" (.str jointtype)
    let ap := sjcApprox j2 jointtype maxeffort_approximation maxspeed_approximation
    match ap.2.2 with
    | some e => ⟨ap.1, logs0 ++ d.2 ++ dis.2 ++ ap.2.1, some e⟩
    | none =>
      let res := sjcResource env ap.1 jointtype
      ⟨res.1, logs0 ++ d.2 ++ dis.2 ++ ap.2.1 ++ res.2, none⟩

/-- `getJointConstraints(joint)`: classify, then read back axis and
limits; under-defined prismatic/planar configurations and a missing
location constraint raise a `JointTypeError` exception. -/
def getJointConstraints (env : Env) (joint : Link) :
    Except String (Option Vec3 × Option (List ℚ)) :=
  let r := deriveJointType joint
  let jt := r.1
  let crot := r.2
  if jt == "floating" || jt == "fixed" then .ok (none, none)
  else if (jt == "revolute" || jt == "continuous") && crot.isSome then
    match getJointConstraint joint "LIMIT_ROTATION" with
    | some (.rot c) =>
      let cl := crot.getD []
      let axis := env.normalize joint.bone_vector
      let limits : Option (List ℚ) :=
        if cl.getD 0 false then some [c.min_x, c.max_x]
        else if cl.getD 1 false then some [c.min_y, c.max_y]
        else if cl.getD 2 false then some [c.min_z, c.max_z]
        else none
      .ok (some axis, limits)
    | _ => .error "AttributeError: NoneType has no constraint fields"
  else
    match getJointConstraint joint "LIMIT_LOCATION" with
    | some (.loc c) =>
      let freeloc : List Bool :=
        [c.use_min_x && c.use_max_x && (c.min_x == c.max_x),
         c.use_min_y && c.use_max_y && (c.min_y == c.max_y),
         c.use_min_z && c.use_max_z && (c.min_z == c.max_z)]
      if jt == "prismatic" then
        if freeloc.count true = 2 then
          let axis := env.normalize joint.bone_vector
          let limits : Option (List ℚ) :=
            if !(freeloc.getD 0 false) then some [c.min_x, c.max_x]
            else if !(freeloc.getD 1 false) then some [c.min_y, c.max_y]
            else if !(freeloc.getD 2 false) then some [c.min_z, c.max_z]
            else none
          .ok (some axis, limits)
        else .error ("JointTypeError: under-defined constraints in joint (" ++ joint.name ++ ").")
      else if jt == "planar" then
        if freeloc.count true = 1 then
          let axis : Vec3 :=
            ⟨if freeloc.getD 0 false then 1 else 0,
             if freeloc.getD 1 false then 1 else 0,
             if freeloc.getD 2 false then 1 else 0⟩
          let limits : Option (List ℚ) :=
            if !(axis.x == 0) then some [c.min_y, c.max_y, c.min_z, c.max_z]
            else if !(axis.y == 0) then some [c.min_x, c.max_x, c.min_z, c.max_z]
            else if !(axis.z == 0) then some [c.min_x, c.max_x, c.min_y, c.max_y]
            else none
          .ok (some axis, limits)
        else .error ("JointTypeError: under-defined constraints in joint (" ++ joint.name ++ ").")
      else .ok (none, none)
    | _ => .error ("JointTypeError: under-defined constraints in joint (" ++ joint.name ++ ").")

/-- The instantaneous joint state returned by `deriveJointState`. -/
structure JointState where
  matrix : List (List ℚ)
  translation : List ℚ
  rotation_euler : List ℚ
  rotation_quaternion : List ℚ
deriving DecidableEq

/-- `mathutils.Matrix.to_translation` on a 4x4 basis matrix: the last
column of the first three rows. -/
def matToTranslation (m : List (List ℚ)) : List ℚ :=
  [(m.getD 0 []).getD 3 0, (m.getD 1 []).getD 3 0, (m.getD 2 []).getD 3 0]

/-- `deriveJointState(joint)`: build the state dictionary from
`joint.pose.bones[0].matrix_basis`.  The Euler and quaternion
decompositions are pure functions of the external `mathutils` library and
are taken as parameters; the operation reads the link and writes
nothing, so it returns the link alongside the state and an empty
diagnostics list in the same stateful-operation shape as the other
operations of the module. -/
def deriveJointState (toEuler toQuat : List (List ℚ) → List ℚ) (joint : Link) :
    JointState × Link × List LogEntry :=
  (⟨joint.matrix_basis, matToTranslation joint.matrix_basis,
    toEuler joint.matrix_basis, toQuat joint.matrix_basis⟩, joint, [])

/-- The `limits` sub-dictionary of a joint definition; `Option` models
key presence. -/
structure LimitsDict where
  lower : Option ℚ
  upper : Option ℚ
  effort : Option ℚ
  velocity : Option ℚ
deriving DecidableEq

/-- The joint definition dictionary consumed by `createJoint`: `name`
and `type` are mandatory, `axis` and `limits` optional; `extraProps`
models the sigil-prefixed custom entries (key with the `$` stripped,
mapped to their tag/value pairs). -/
structure JointDef where
  name : String
  jtype : String
  axis : Option Vec3
  limits : Option LimitsDict
  extraProps : List (String × List (String × PropVal))

/-- Result of `createJoint`: the mutated link, the diagnostics, and a
propagated uncaught exception (none on the paths modelled here, since
`createJoint` passes no approximation dictionaries on). -/
structure CJResult where
  link : Link
  logs : List LogEntry
  err : Option String

/-- Intermediate result of the limits block of `createJoint`. -/
structure LimStep where
  link : Link
  logs : List LogEntry
  lower : ℚ
  upper : ℚ

/-- The generic-property loop of `createJoint` (lines 127 to 130): each
sigil-prefixed entry is flattened to `joint/<prop>/<tag>` keys. -/
def applyGenericProps (l : Link)
    (ps : List (String × List (String × PropVal))) : Link :=
  ps.foldl
    (fun l pt =>
      pt.2.foldl (fun l tv => setProp l ("joint/" ++ pt.1 ++ "/" ++ tv.1) tv.2) l)
    l

/-- The axis block of `createJoint` (lines 89 to 98): a zero-length axis
is logged as an error and skipped; otherwise the edit-bone tail is moved
to `head + axis.normalized() * length`. -/
def cjAxisStep (env : Env) (joint : JointDef) (linkobj : Link) :
    Link × List LogEntry :=
  match joint.axis with
  | none => (linkobj, [])
  | some a =>
    if vecLenSqZero a then
      (linkobj, [⟨"Axis of joint " ++ joint.name ++ " is of zero length: ", "ERROR"⟩])
    else
      let length := env.norm (vsub linkobj.editbone_tail linkobj.editbone_head)
      ({ linkobj with
          editbone_tail := vadd linkobj.editbone_head (vsmul length (env.normalize a)) }, [])

/-- The limits block of `createJoint` (lines 101 to 123): store effort
and velocity when present (erroring per missing field), then take lower
and upper from the dictionary when both are present, else warn and use
the sentinel pair `(-1e-5, 1e-5)`. -/
def cjLimitsStep (joint : JointDef) (linkobj : Link) : LimStep :=
  match joint.limits with
  | some lim =>
    let eStep : Link × List LogEntry :=
      match lim.effort with
      | some e => (setProp linkobj "joint/maxEffort" (.num e), [])
      | none =>
        (linkobj,
         [⟨"Joint limits incomplete for joint " ++ joint.name ++ ". Missing effort.", "ERROR"⟩])
    let vStep : Link × List LogEntry :=
      match lim.velocity with
      | some v => (setProp eStep.1 "joint/maxSpeed" (.num v), [])
      | none =>
        (eStep.1,
         [⟨"Joint limits incomplete for joint " ++ joint.name ++ ". Missing velocity.", "ERROR"⟩])
    match lim.lower, lim.upper with
    | some lo, some up => ⟨vStep.1, eStep.2 ++ vStep.2, lo, up⟩
    | _, _ =>
      ⟨vStep.1,
       eStep.2 ++ vStep.2 ++
         [⟨"Joint limits upper/lower is missing! Defaulted to [-1e-5, 1e-5].", "WARNING"⟩],
       -(1 / 100000), 1 / 100000⟩
  | none =>
    ⟨linkobj,
     [⟨"Joint limits upper/lower is missing! Defaulted both to [-1e-5, 1e-5].", "WARNING"⟩],
     -(1 / 100000), 1 / 100000⟩

/-- `createJoint(joint, linkobj)` with the link object already resolved
(the name-based child search of lines 62 to 79 belongs to the scene
collaborator): record `joint/name` when it differs from the link name,
run the axis block, the limits block, `setJointConstraints` (spring and
damping zero, no approximations), and finally the generic-property
loop. -/
def createJoint (env : Env) (joint : JointDef) (linkobj : Link) : CJResult :=
  let linkobj :=
    if joint.name ≠ linkobj.name then setProp linkobj "joint/name" (.str joint.name)
    else linkobj
  let ax := cjAxisStep env joint linkobj
  let lim := cjLimitsStep joint ax.1
  let r := setJointConstraints env lim.link joint.jtype lim.lower lim.upper 0 0 none none
  match r.err with
  | some e => ⟨r.link, ax.2 ++ lim.logs ++ r.logs, some e⟩
  | none =>
    let final := applyGenericProps r.link joint.extraProps
    ⟨final,
     ax.2 ++ lim.logs ++ r.logs ++
       [⟨"Assigned joint information to " ++ final.name ++ ".", "DEBUG"⟩],
     none⟩


/-- A concrete well-formed link used to instantiate the theorems. -/
def link0 : Link :=
  ⟨"testlink", "link", [], [],
   [[1, 0, 0, 0], [0, 1, 0, 0], [0, 0, 1, 0], [0, 0, 0, 1]],
   ⟨0, 1, 0⟩, ⟨0, 0, 0⟩, ⟨0, 1, 0⟩, none, none, none⟩

/-- A concrete host environment: no rigid body world, no resources,
identity vector services. -/
def env0 : Env := ⟨false, fun _ _ => none, id, fun _ => 1⟩

/-- A location constraint locking all three axes to the degenerate range
`(0, 0)` with both flag families set (as all five builders produce). -/
def cloc3Lock : LimitLocation :=
  { use_min_x := true, use_min_y := true, use_min_z := true,
    use_max_x := true, use_max_y := true, use_max_z := true,
    owner_space := "LOCAL" }

/-- A rotation constraint limiting only the x axis with nonzero range. -/
def rotXOnly : LimitRotation :=
  { use_limit_x := true, min_x := -1, max_x := 1 }

/-- A rotation constraint limiting x and z to `(0, 0)` (the continuous
builder pattern). -/
def rotXZOnly : LimitRotation :=
  { use_limit_x := true, min_x := 0, max_x := 0,
    use_limit_z := true, min_z := 0, max_z := 0,
    owner_space := "LOCAL" }

/-- A location constraint whose min-enable flags are all set while every
max-enable flag is clear (bounds at the default `0`). -/
def clocMinOnly : LimitLocation :=
  { use_min_x := true, use_min_y := true, use_min_z := true }

/-- The number of translational axes the SPEC calls locked: the spec
wording for claim C5 requires both the min and the max enabling flag to
be set and the bounds to be equal.  Stated from the spec for comparison
against the classifier in the code. -/
def countLockedSpec (c : LimitLocation) : Nat :=
  ([c.use_min_x && c.use_max_x && (c.min_x == c.max_x),
    c.use_min_y && c.use_max_y && (c.min_y == c.max_y),
    c.use_min_z && c.use_max_z && (c.min_z == c.max_z)]).count true

/-- A joint definition with a zero-length axis vector. -/
def jdZero : JointDef :=
  ⟨"j0", "revolute", some ⟨0, 0, 0⟩, some ⟨some (-1), some 1, some 1, some 1⟩, []⟩

/-- A joint definition with no limits block. -/
def jd7 : JointDef := ⟨"j7", "revolute", none, none, []⟩

/-- A joint definition with limits carrying lower, upper and effort but
no velocity. -/
def jd8 : JointDef := ⟨"j8", "revolute", none, some ⟨some (-1), some 1, some 50, none⟩, []⟩

/-! ## Helper lemmas -/

theorem setProp_phobostype (l : Link) (k : String) (v : PropVal) :
    (setProp l k v).phobostype = l.phobostype := rfl

theorem setProp_constraints (l : Link) (k : String) (v : PropVal) :
    (setProp l k v).constraints = l.constraints := rfl

theorem setProp_editbone_head (l : Link) (k : String) (v : PropVal) :
    (setProp l k v).editbone_head = l.editbone_head := rfl

theorem setProp_editbone_tail (l : Link) (k : String) (v : PropVal) :
    (setProp l k v).editbone_tail = l.editbone_tail := rfl

theorem setProp_name (l : Link) (k : String) (v : PropVal) :
    (setProp l k v).name = l.name := rfl

theorem getProp_setProp_same (l : Link) (k : String) (v : PropVal) :
    getProp (setProp l k v) k = some v := by
  simp [getProp, setProp, List.find?]

theorem find?_filter_ne (ps : List (String × PropVal)) (k kp : String) (h : kp ≠ k) :
    (ps.filter (fun kv => !(kv.1 == kp))).find? (fun kv => kv.1 == k) =
      ps.find? (fun kv => kv.1 == k) := by
  induction ps with
  | nil => rfl
  | cons a ps ih =>
    rcases eq_or_ne a.1 kp with hk | hk
    · have h2 : (kp == k) = false := by simp [h]
      simp [List.filter_cons, hk, List.find?_cons, h2, ih]
    · simp only [List.filter_cons]
      have h1 : (a.1 == kp) = false := by simp [hk]
      simp only [h1, Bool.not_false, if_true, cond_true, List.find?_cons, ih]

theorem getProp_setProp_ne (l : Link) (kp k : String) (v : PropVal) (h : kp ≠ k) :
    getProp (setProp l kp v) k = getProp l k := by
  have hk : (kp == k) = false := by simp [h]
  simp [getProp, setProp, List.find?_cons, hk, find?_filter_ne l.props k kp h]

theorem genericKey_ne (p t k : String) (hk : k.data.count (Char.ofNat 47) = 1) :
    ("joint/" ++ p ++ "/" ++ t) ≠ k := by
  intro he
  have hd := congrArg (fun s : String => s.data.count (Char.ofNat 47)) he
  simp only [String.data_append, List.count_append] at hd
  rw [hk] at hd
  have h1 : ("joint/" : String).data.count (Char.ofNat 47) = 1 := by decide
  have h2 : ("/" : String).data.count (Char.ofNat 47) = 1 := by decide
  rw [h1, h2] at hd
  omega

theorem innerFold_getProp (l : Link) (p : String) (ts : List (String × PropVal))
    (k : String) (hk : k.data.count (Char.ofNat 47) = 1) :
    getProp (ts.foldl (fun l tv => setProp l ("joint/" ++ p ++ "/" ++ tv.1) tv.2) l) k =
      getProp l k := by
  induction ts generalizing l with
  | nil => rfl
  | cons a ts ih =>
    rw [List.foldl_cons, ih, getProp_setProp_ne _ _ _ _ (genericKey_ne p a.1 k hk)]

theorem applyGenericProps_getProp (l : Link)
    (ps : List (String × List (String × PropVal))) (k : String)
    (hk : k.data.count (Char.ofNat 47) = 1) :
    getProp (applyGenericProps l ps) k = getProp l k := by
  induction ps generalizing l with
  | nil => rfl
  | cons a ps ih =>
    simp only [applyGenericProps, List.foldl_cons] at ih ⊢
    rw [ih, innerFold_getProp _ _ _ _ hk]

theorem innerFold_constraints (l : Link) (p : String) (ts : List (String × PropVal)) :
    (ts.foldl (fun l tv => setProp l ("joint/" ++ p ++ "/" ++ tv.1) tv.2) l).constraints =
      l.constraints := by
  induction ts generalizing l with
  | nil => rfl
  | cons a ts ih => rw [List.foldl_cons]; exact ih _

theorem applyGenericProps_constraints (l : Link)
    (ps : List (String × List (String × PropVal))) :
    (applyGenericProps l ps).constraints = l.constraints := by
  induction ps generalizing l with
  | nil => rfl
  | cons a ps ih =>
    simp only [applyGenericProps, List.foldl_cons] at ih ⊢
    rw [ih, innerFold_constraints]

theorem innerFold_editbone_head (l : Link) (p : String) (ts : List (String × PropVal)) :
    (ts.foldl (fun l tv => setProp l ("joint/" ++ p ++ "/" ++ tv.1) tv.2) l).editbone_head =
      l.editbone_head := by
  induction ts generalizing l with
  | nil => rfl
  | cons a ts ih => rw [List.foldl_cons]; exact ih _

theorem innerFold_editbone_tail (l : Link) (p : String) (ts : List (String × PropVal)) :
    (ts.foldl (fun l tv => setProp l ("joint/" ++ p ++ "/" ++ tv.1) tv.2) l).editbone_tail =
      l.editbone_tail := by
  induction ts generalizing l with
  | nil => rfl
  | cons a ts ih => rw [List.foldl_cons]; exact ih _

theorem applyGenericProps_editbone_head (l : Link)
    (ps : List (String × List (String × PropVal))) :
    (applyGenericProps l ps).editbone_head = l.editbone_head := by
  induction ps generalizing l with
  | nil => rfl
  | cons a ps ih =>
    simp only [applyGenericProps, List.foldl_cons] at ih ⊢
    rw [ih, innerFold_editbone_head]

theorem applyGenericProps_editbone_tail (l : Link)
    (ps : List (String × List (String × PropVal))) :
    (applyGenericProps l ps).editbone_tail = l.editbone_tail := by
  induction ps generalizing l with
  | nil => rfl
  | cons a ps ih =>
    simp only [applyGenericProps, List.foldl_cons] at ih ⊢
    rw [ih, innerFold_editbone_tail]

theorem sjcDynamics_zero (env : Env) (j : Link) (t : String) :
    sjcDynamics env j t 0 0 = (j, []) := by
  simp [sjcDynamics]

theorem sjcApprox_none (j : Link) (t : String) :
    sjcApprox j t none none = (j, [], none) := by
  unfold sjcApprox
  split <;> rfl

theorem sjcResource_constraints (env : Env) (j : Link) (t : String) :
    (sjcResource env j t).1.constraints = j.constraints := by
  unfold sjcResource
  split <;> rfl

theorem sjcResource_getProp (env : Env) (j : Link) (t k : String) :
    getProp (sjcResource env j t).1 k = getProp j k := by
  unfold sjcResource
  split <;> rfl

theorem sjcResource_editbone_head (env : Env) (j : Link) (t : String) :
    (sjcResource env j t).1.editbone_head = j.editbone_head := by
  unfold sjcResource
  split <;> rfl

theorem sjcResource_editbone_tail (env : Env) (j : Link) (t : String) :
    (sjcResource env j t).1.editbone_tail = j.editbone_tail := by
  unfold sjcResource
  split <;> rfl

theorem sjcDispatch_phobostype (j : Link) (t : String) (lo up : ℚ) :
    (sjcDispatch j t lo up).1.phobostype = j.phobostype := by
  unfold sjcDispatch
  repeat' split
  all_goals rfl

theorem sjcDispatch_props (j : Link) (t : String) (lo up : ℚ) :
    (sjcDispatch j t lo up).1.props = j.props := by
  unfold sjcDispatch
  repeat' split
  all_goals rfl

theorem sjcDispatch_editbone_head (j : Link) (t : String) (lo up : ℚ) :
    (sjcDispatch j t lo up).1.editbone_head = j.editbone_head := by
  unfold sjcDispatch
  repeat' split
  all_goals rfl

theorem sjcDispatch_editbone_tail (j : Link) (t : String) (lo up : ℚ) :
    (sjcDispatch j t lo up).1.editbone_tail = j.editbone_tail := by
  unfold sjcDispatch
  repeat' split
  all_goals rfl

theorem setJointConstraints_simple (env : Env) (link : Link) (t : String) (lo up : ℚ)
    (hl : link.phobostype = "link") :
    setJointConstraints env link t lo up 0 0 none none =
      ⟨(sjcResource env (setProp (sjcDispatch { link with constraints := [] } t lo up).1
          "joint/type" (.str t)) t).1,
       ⟨"Setting joint constraints at link " ++ link.name ++ ".", "DEBUG"⟩ ::
         ((sjcDispatch { link with constraints := [] } t lo up).2 ++
          (sjcResource env (setProp (sjcDispatch { link with constraints := [] } t lo up).1
            "joint/type" (.str t)) t).2),
       none⟩ := by
  simp [setJointConstraints, hl, sjcDynamics_zero, sjcApprox_none]

theorem sjc_err_none (env : Env) (link : Link) (t : String) (lo up : ℚ)
    (hl : link.phobostype = "link") :
    (setJointConstraints env link t lo up 0 0 none none).err = none := by
  rw [setJointConstraints_simple env link t lo up hl]

theorem sjc_getProp_type (env : Env) (link : Link) (t : String) (lo up : ℚ)
    (hl : link.phobostype = "link") :
    getProp (setJointConstraints env link t lo up 0 0 none none).link "joint/type" =
      some (.str t) := by
  rw [setJointConstraints_simple env link t lo up hl]
  exact (sjcResource_getProp _ _ _ _).trans (getProp_setProp_same _ _ _)

theorem sjc_getProp_other (env : Env) (link : Link) (t : String) (lo up : ℚ) (k : String)
    (hl : link.phobostype = "link") (hk : k ≠ "joint/type") :
    getProp (setJointConstraints env link t lo up 0 0 none none).link k =
      getProp { link with constraints := ([] : List Constraint) } k := by
  rw [setJointConstraints_simple env link t lo up hl]
  rw [sjcResource_getProp, getProp_setProp_ne _ _ _ _ (Ne.symm hk)]
  unfold getProp
  rw [sjcDispatch_props]

theorem sjc_constraints (env : Env) (link : Link) (t : String) (lo up : ℚ)
    (hl : link.phobostype = "link") :
    (setJointConstraints env link t lo up 0 0 none none).link.constraints =
      (sjcDispatch { link with constraints := [] } t lo up).1.constraints := by
  rw [setJointConstraints_simple env link t lo up hl]
  rw [sjcResource_constraints, setProp_constraints]

theorem sjc_editbone_head (env : Env) (link : Link) (t : String) (lo up : ℚ)
    (hl : link.phobostype = "link") :
    (setJointConstraints env link t lo up 0 0 none none).link.editbone_head =
      link.editbone_head := by
  rw [setJointConstraints_simple env link t lo up hl]
  rw [sjcResource_editbone_head, setProp_editbone_head, sjcDispatch_editbone_head]

theorem sjc_editbone_tail (env : Env) (link : Link) (t : String) (lo up : ℚ)
    (hl : link.phobostype = "link") :
    (setJointConstraints env link t lo up 0 0 none none).link.editbone_tail =
      link.editbone_tail := by
  rw [setJointConstraints_simple env link t lo up hl]
  rw [sjcResource_editbone_tail, setProp_editbone_tail, sjcDispatch_editbone_tail]

theorem cjAxisStep_phobostype (env : Env) (jd : JointDef) (l : Link) :
    (cjAxisStep env jd l).1.phobostype = l.phobostype := by
  unfold cjAxisStep
  repeat' split
  all_goals rfl

theorem cjAxisStep_zero (env : Env) (jd : JointDef) (l : Link) (a : Vec3)
    (hax : jd.axis = some a) (h0 : vecLenSqZero a = true) :
    cjAxisStep env jd l =
      (l, [⟨"Axis of joint " ++ jd.name ++ " is of zero length: ", "ERROR"⟩]) := by
  simp [cjAxisStep, hax, h0]

theorem cjLimitsStep_phobostype (jd : JointDef) (l : Link) :
    (cjLimitsStep jd l).link.phobostype = l.phobostype := by
  simp only [cjLimitsStep]
  repeat' split
  all_goals rfl

theorem cjLimitsStep_editbone_head (jd : JointDef) (l : Link) :
    (cjLimitsStep jd l).link.editbone_head = l.editbone_head := by
  simp only [cjLimitsStep]
  repeat' split
  all_goals rfl

theorem cjLimitsStep_editbone_tail (jd : JointDef) (l : Link) :
    (cjLimitsStep jd l).link.editbone_tail = l.editbone_tail := by
  simp only [cjLimitsStep]
  repeat' split
  all_goals rfl

theorem createJoint_eq (env : Env) (jd : JointDef) (link : Link)
    (hl : link.phobostype = "link") :
    createJoint env jd link =
      (let l1 := if jd.name ≠ link.name then setProp link "joint/name" (.str jd.name) else link
       let ax := cjAxisStep env jd l1
       let lim := cjLimitsStep jd ax.1
       let r := setJointConstraints env lim.link jd.jtype lim.lower lim.upper 0 0 none none
       let final := applyGenericProps r.link jd.extraProps
       ⟨final,
        ax.2 ++ lim.logs ++ r.logs ++
          [⟨"Assigned joint information to " ++ final.name ++ ".", "DEBUG"⟩],
        none⟩) := by
  have hp : (cjLimitsStep jd (cjAxisStep env jd
      (if jd.name ≠ link.name then setProp link "joint/name" (.str jd.name)
       else link)).1).link.phobostype = "link" := by
    rw [cjLimitsStep_phobostype, cjAxisStep_phobostype]
    by_cases hn : jd.name ≠ link.name
    · rw [if_pos hn, setProp_phobostype, hl]
    · rw [if_neg hn, hl]
  simp only [createJoint]
  rw [sjc_err_none _ _ _ _ _ hp]

theorem sjcDispatch_revolute (j : Link) (lo up : ℚ) :
    sjcDispatch j "revolute" lo up = (set_revolute j lo up, []) := rfl

theorem sjcDispatch_continuous (j : Link) (lo up : ℚ) :
    sjcDispatch j "continuous" lo up = (set_continuous j, []) := rfl

theorem sjcDispatch_prismatic (j : Link) (lo up : ℚ) :
    sjcDispatch j "prismatic" lo up = (set_prismatic j lo up, []) := rfl

theorem sjcDispatch_fixed (j : Link) (lo up : ℚ) :
    sjcDispatch j "fixed" lo up = (set_fixed j, []) := rfl

theorem sjcDispatch_planar (j : Link) (lo up : ℚ) :
    sjcDispatch j "planar" lo up = (set_planar j, []) := rfl

theorem getProp_constraints_irrel (l : Link) (cs : List Constraint) (k : String) :
    getProp { l with constraints := cs } k = getProp l k := rfl

/-! ## Claim theorems -/

/-- C10: for every object whose `phobostype` is not `link`,
`setJointConstraints` logs a single error and returns with the object
unchanged: no constraint is removed or added and no metadata key is
written. -/
theorem C10_not_link_noop (env : Env) (link : Link) (jt : String)
    (lo up sp dp : ℚ) (ma ms : Option ApproxDict) (h : link.phobostype ≠ "link") :
    setJointConstraints env link jt lo up sp dp ma ms =
      ⟨link, [⟨"Cannot set joint constraints. Not a link: " ++ link.name, "ERROR"⟩], none⟩ := by
  have hb : (link.phobostype == "link") = false := by simp [h]
  simp [setJointConstraints, hb]

/-- Witness for C10 at a concrete mesh object. -/
theorem C10_not_link_noop_witness :
    ({ link0 with phobostype := "mesh" } : Link).phobostype ≠ "link" ∧
    setJointConstraints env0 { link0 with phobostype := "mesh" } "revolute" 0 1 0 0 none none =
      ⟨{ link0 with phobostype := "mesh" },
       [⟨"Cannot set joint constraints. Not a link: " ++ link0.name, "ERROR"⟩], none⟩ :=
  ⟨by decide, C10_not_link_noop env0 _ "revolute" 0 1 0 0 none none (by decide)⟩

/-- C9: `deriveJointState` is deterministic, idempotent and
side-effect-free: it returns the link unchanged with no diagnostics, and
a second call on the returned link yields the identical state, for every
choice of the external `mathutils` decomposition functions. -/
theorem C9_deriveJointState_pure (toEuler toQuat : List (List ℚ) → List ℚ) (joint : Link) :
    (deriveJointState toEuler toQuat joint).2.1 = joint ∧
    (deriveJointState toEuler toQuat ((deriveJointState toEuler toQuat joint).2.1)).1 =
      (deriveJointState toEuler toQuat joint).1 ∧
    (deriveJointState toEuler toQuat joint).2.2 = [] ∧
    (deriveJointState toEuler toQuat ((deriveJointState toEuler toQuat joint).2.1)).2.1 = joint :=
  ⟨rfl, rfl, rfl, rfl⟩

/-- C6: building a prismatic joint with `lower == upper` clears the
min/max enable flags of the translational y axis instead of writing an
enabled degenerate range; with `lower != upper` the y axis is enabled
with range `(lower, upper)`. -/
theorem C6_prismatic_degenerate (joint : Link) (lower upper : ℚ) :
    ∃ c : LimitLocation,
      getJointConstraint (set_prismatic joint lower upper) "LIMIT_LOCATION" = some (.loc c) ∧
      (lower = upper → c.use_min_y = false ∧ c.use_max_y = false) ∧
      (lower ≠ upper →
        c.use_min_y = true ∧ c.use_max_y = true ∧ c.min_y = lower ∧ c.max_y = upper) := by
  by_cases h : lower = upper
  · refine ⟨{ use_min_x := true, use_min_z := true, use_max_x := true, use_max_z := true,
              owner_space := "LOCAL" },
      ?_, fun _ => ⟨rfl, rfl⟩, fun hn => absurd h hn⟩
    simp [set_prismatic, addConstraint, getJointConstraint, h, List.foldl_append, ctypeOf]
  · refine ⟨{ use_min_x := true, use_min_y := true, use_min_z := true,
              use_max_x := true, use_max_y := true, use_max_z := true,
              min_y := lower, max_y := upper, owner_space := "LOCAL" },
      ?_, fun he => absurd he h, fun _ => ⟨rfl, rfl, rfl, rfl⟩⟩
    simp [set_prismatic, addConstraint, getJointConstraint, h, List.foldl_append, ctypeOf]

/-- Witness for C6 at the concrete limit pairs `(5, 5)` and `(0, 1)`. -/
theorem C6_prismatic_degenerate_witness :
    (∃ c : LimitLocation,
      getJointConstraint (set_prismatic link0 5 5) "LIMIT_LOCATION" = some (.loc c) ∧
      c.use_min_y = false ∧ c.use_max_y = false) ∧
    (∃ c : LimitLocation,
      getJointConstraint (set_prismatic link0 0 1) "LIMIT_LOCATION" = some (.loc c) ∧
      c.use_min_y = true ∧ c.use_max_y = true ∧ c.min_y = 0 ∧ c.max_y = 1) := by
  constructor
  · obtain ⟨c, hc, h1, _⟩ := C6_prismatic_degenerate link0 5 5
    exact ⟨c, hc, (h1 rfl).1, (h1 rfl).2⟩
  · obtain ⟨c, hc, _, h2⟩ := C6_prismatic_degenerate link0 0 1
    have h := h2 (by norm_num)
    exact ⟨c, hc, h.1, h.2.1, h.2.2.1, h.2.2.2⟩

/-- C5 counterexample: a location constraint whose three min-enable
flags are set while every max-enable flag is clear is counted as fully
locked by the classifier (together with an x/z rotation lock it
classifies as continuous), although under the claimed locking rule
(both flags required) zero axes are locked. -/
theorem C5_locked_axis_counterexample :
    (getJointTypeOf [.loc clocMinOnly, .rot rotXZOnly]).1 = "continuous" ∧
    countLockedSpec clocMinOnly = 0 := by
  constructor <;> rfl

/-- C5 amended: the classifier counts a translational axis as locked
exactly when its min-enable flag is set and its min equals its max; the
max-enable flags are never consulted (classification is invariant under
arbitrary changes to them), unlike `getJointConstraints`, which
requires both flags. -/
theorem C5_locked_axis_amended (c : LimitLocation) (r : LimitRotation) (b1 b2 b3 : Bool) :
    getJointTypeOf [.loc { c with use_max_x := b1, use_max_y := b2, use_max_z := b3 }, .rot r] =
      getJointTypeOf [.loc c, .rot r] ∧
    (getJointTypeOf [.loc c, .rot rotXZOnly]).1 =
      (if ([c.use_min_x && (c.min_x == c.max_x), c.use_min_y && (c.min_y == c.max_y),
            c.use_min_z && (c.min_z == c.max_z)].count true) = 3 then "continuous"
       else if ([c.use_min_x && (c.min_x == c.max_x), c.use_min_y && (c.min_y == c.max_y),
            c.use_min_z && (c.min_z == c.max_z)].count true) = 2 then "prismatic"
       else if ([c.use_min_x && (c.min_x == c.max_x), c.use_min_y && (c.min_y == c.max_y),
            c.use_min_z && (c.min_z == c.max_z)].count true) = 1 then "planar"
       else "floating") := by
  refine ⟨rfl, ?_⟩
  cases hbx : (c.use_min_x && (c.min_x == c.max_x)) <;>
    cases hby : (c.use_min_y && (c.min_y == c.max_y)) <;>
      cases hbz : (c.use_min_z && (c.min_z == c.max_z)) <;>
        simp [getJointTypeOf, clocList, crotList, rotXZOnly, hbx, hby, hbz]

/-- C4 counterexample: a constraint set with all three translational
axes locked and exactly one limited rotational axis matches none of t
he five patterns, yet classification silently returns floating (and
`getJointConstraints` returns successfully with no axis/limits) instead
of reporting an under-defined-joint error. -/
theorem C4_underdefined_counterexample :
    (getJointType { link0 with constraints := [.loc cloc3Lock, .rot rotXOnly] }).1 =
      "floating" ∧
    getJointConstraints env0 { link0 with constraints := [.loc cloc3Lock, .rot rotXOnly] } =
      .ok (none, none) :=
  ⟨rfl, rfl⟩

/-- C4 amended: a constraint set with a full translational lock and at
most one limited rotational axis is silently classified as floating,
and `getJointConstraints` then returns `(none, none)` without error;
the under-defined-joint exception is raised only inside
`getJointConstraints` for prismatic or planar classifications whose
recomputed locked-axis count disagrees, or when the location constraint
is missing for a non-floating, non-fixed type. -/
theorem C4_underdefined_amended (env : Env) (rc : LimitRotation)
    (h : ([rc.use_limit_x, rc.use_limit_y, rc.use_limit_z].count true) ≤ 1) :
    (getJointType { link0 with constraints := [.loc cloc3Lock, .rot rc] }).1 = "floating" ∧
    getJointConstraints env { link0 with constraints := [.loc cloc3Lock, .rot rc] } =
      .ok (none, none) := by
  obtain ⟨ux, uy, uz, mn1, mn2, mn3, mx1, mx2, mx3, os⟩ := rc
  revert h
  cases ux <;> cases uy <;> cases uz <;> intro h <;>
    first
      | exact ⟨rfl, rfl⟩
      | (simp at h)

/-- Witness for C4 amended at the concrete one-limited-axis rotation
constraint. -/
theorem C4_underdefined_amended_witness :
    ([rotXOnly.use_limit_x, rotXOnly.use_limit_y, rotXOnly.use_limit_z].count true ≤ 1) ∧
    (getJointType { link0 with constraints := [.loc cloc3Lock, .rot rotXOnly] }).1 =
      "floating" :=
  ⟨by decide, (C4_underdefined_amended env0 rotXOnly (by decide)).1⟩

/-- C1: for every joint type among fixed, revolute, continuous,
prismatic and planar, and every limit pair with `lower < upper`,
classifying the constraint set produced by `setJointConstraints` with
zero spring and damping returns exactly the built type. -/
theorem C1_classify_build_roundtrip (t : String)
    (ht : t ∈ ["fixed", "revolute", "continuous", "prismatic", "planar"])
    (lower upper : ℚ) (h : lower < upper) (env : Env) (link : Link)
    (hl : link.phobostype = "link") :
    (getJointType (setJointConstraints env link t lower upper 0 0 none none).link).1 = t := by
  have key := sjc_constraints env link t lower upper hl
  unfold getJointType
  rw [key]
  simp only [List.mem_cons, List.mem_singleton, List.not_mem_nil, or_false] at ht
  rcases ht with rfl | rfl | rfl | rfl | rfl
  · rw [sjcDispatch_fixed]
    rfl
  · rw [sjcDispatch_revolute]
    have hb : (!(lower == 0) || !(upper == 0)) = true := by
      rcases eq_or_ne lower 0 with h0 | h0
      · have hu : upper ≠ 0 := by rw [h0] at h; exact ne_of_gt h
        simp [hu]
      · simp [h0]
    simp [set_revolute, addConstraint, getJointTypeOf, clocList, crotList, hb]
  · rw [sjcDispatch_continuous]
    rfl
  · rw [sjcDispatch_prismatic]
    have hne : lower ≠ upper := ne_of_lt h
    have hbe : (lower == upper) = false := by simp [hne]
    simp [set_prismatic, addConstraint, getJointTypeOf, clocList, crotList, hne, hbe]
  · rw [sjcDispatch_planar]
    rfl

/-- Witness for C1 at the revolute type with limits `(-1, 1)`. -/
theorem C1_classify_build_roundtrip_witness :
    ("revolute" ∈ ["fixed", "revolute", "continuous", "prismatic", "planar"] ∧
      ((-1 : ℚ) < 1) ∧ link0.phobostype = "link") ∧
    (getJointType (setJointConstraints env0 link0 "revolute" (-1) 1 0 0 none none).link).1 =
      "revolute" :=
  ⟨⟨by decide, by decide, rfl⟩,
   C1_classify_build_roundtrip "revolute" (by decide) (-1) 1 (by decide) env0 link0 rfl⟩

/-- C3 (evaluation at the failing input): passing a maxeffort
approximation that has a `function` entry but no `coefficients` entry
makes `setJointConstraints` take the success branch (its membership
test is inverted: it checks that every dictionary key lies in the
two-element list instead of checking that both required keys are
present), write the approximation metadata key, and then raise an
uncaught `KeyError` on the missing `coefficients` lookup — a partial
write with no reported error, where the documentation promises an
ill-defined-approximation diagnostic and no write. -/
theorem C3_approx_partial_write_eval :
    (setJointConstraints env0 link0 "revolute" (-1) 1 0 0
        (some ⟨[("function", .str "poly")]⟩) none).err = some "KeyError: coefficients" ∧
    getProp (setJointConstraints env0 link0 "revolute" (-1) 1 0 0
        (some ⟨[("function", .str "poly")]⟩) none).link "joint/maxeffort_approximation" =
      some (.str "poly") ∧
    getProp (setJointConstraints env0 link0 "revolute" (-1) 1 0 0
        (some ⟨[("function", .str "poly")]⟩) none).link "joint/maxeffort_coefficients" =
      none ∧
    ¬ ∃ e ∈ (setJointConstraints env0 link0 "revolute" (-1) 1 0 0
        (some ⟨[("function", .str "poly")]⟩) none).logs, e.level = "ERROR" := by
  refine ⟨rfl, rfl, rfl, ?_⟩
  decide

/-- C2 counterexample: applying a joint definition whose axis is the
zero vector does not abort and does mutate the link — the operation
returns without an exception and the metadata tag `joint/type` has been
written. -/
theorem C2_zero_axis_counterexample :
    (createJoint env0 jdZero link0).err = none ∧
    (createJoint env0 jdZero link0).link ≠ link0 ∧
    getProp (createJoint env0 jdZero link0).link "joint/type" = some (.str "revolute") := by
  refine ⟨rfl, ?_, rfl⟩
  decide

/-- C2 amended: for a joint definition whose axis has zero length,
`createJoint` logs a zero-length-axis error and skips the edit-bone
axis update (head and tail stay unchanged), but it does not abort: it
still proceeds to write the constraints and metadata, in particular the
`joint/type` tag. -/
theorem C2_zero_axis_amended (env : Env) (jd : JointDef) (link : Link) (a : Vec3)
    (hax : jd.axis = some a) (h0 : vecLenSqZero a = true) (hl : link.phobostype = "link") :
    (⟨"Axis of joint " ++ jd.name ++ " is of zero length: ", "ERROR"⟩ ∈
        (createJoint env jd link).logs) ∧
    (createJoint env jd link).link.editbone_head = link.editbone_head ∧
    (createJoint env jd link).link.editbone_tail = link.editbone_tail ∧
    getProp (createJoint env jd link).link "joint/type" = some (.str jd.jtype) := by
  have hp1 : (if jd.name ≠ link.name then setProp link "joint/name" (.str jd.name)
      else link).phobostype = "link" := by
    split
    · rw [setProp_phobostype, hl]
    · exact hl
  have heh : (if jd.name ≠ link.name then setProp link "joint/name" (.str jd.name)
      else link).editbone_head = link.editbone_head := by
    split
    · rw [setProp_editbone_head]
    · rfl
  have het : (if jd.name ≠ link.name then setProp link "joint/name" (.str jd.name)
      else link).editbone_tail = link.editbone_tail := by
    split
    · rw [setProp_editbone_tail]
    · rfl
  have haxz := cjAxisStep_zero env jd
    (if jd.name ≠ link.name then setProp link "joint/name" (.str jd.name) else link) a hax h0
  have hplim : (cjLimitsStep jd (if jd.name ≠ link.name then
      setProp link "joint/name" (.str jd.name) else link)).link.phobostype = "link" := by
    rw [cjLimitsStep_phobostype]
    exact hp1
  simp only [createJoint_eq env jd link hl, haxz]
  refine ⟨by simp, ?_, ?_, ?_⟩
  · rw [applyGenericProps_editbone_head, sjc_editbone_head _ _ _ _ _ hplim,
      cjLimitsStep_editbone_head]
    exact heh
  · rw [applyGenericProps_editbone_tail, sjc_editbone_tail _ _ _ _ _ hplim,
      cjLimitsStep_editbone_tail]
    exact het
  · rw [applyGenericProps_getProp _ _ _ (by decide), sjc_getProp_type _ _ _ _ _ hplim]

/-- Witness for C2 amended at the concrete zero-axis joint definition. -/
theorem C2_zero_axis_amended_witness :
    (jdZero.axis = some ⟨0, 0, 0⟩ ∧ vecLenSqZero ⟨0, 0, 0⟩ = true ∧
      link0.phobostype = "link") ∧
    ((⟨"Axis of joint " ++ jdZero.name ++ " is of zero length: ", "ERROR"⟩ ∈
        (createJoint env0 jdZero link0).logs) ∧
     (createJoint env0 jdZero link0).link.editbone_head = link0.editbone_head ∧
     (createJoint env0 jdZero link0).link.editbone_tail = link0.editbone_tail ∧
     getProp (createJoint env0 jdZero link0).link "joint/type" = some (.str jdZero.jtype)) :=
  ⟨⟨rfl, by decide, rfl⟩,
   C2_zero_axis_amended env0 jdZero link0 ⟨0, 0, 0⟩ rfl (by decide) rfl⟩

theorem cjLimitsStep_default (jd : JointDef) (l : Link)
    (hmiss : match jd.limits with
             | none => True
             | some ld => ld.lower = none ∨ ld.upper = none) :
    (∃ e ∈ (cjLimitsStep jd l).logs, e.level = "WARNING") ∧
    (cjLimitsStep jd l).lower = -(1 / 100000) ∧
    (cjLimitsStep jd l).upper = 1 / 100000 := by
  rcases hj : jd.limits with _ | ld
  · simp [cjLimitsStep, hj]
  · rw [hj] at hmiss
    obtain ⟨lov, upv, ev, vv⟩ := ld
    simp only at hmiss
    rcases lov with _ | lo <;> rcases upv with _ | up <;>
      rcases ev with _ | e <;> rcases vv with _ | v <;>
        simp_all [cjLimitsStep, hj]

theorem cjLimitsStep_vals (jd : JointDef) (l : Link) (ld : LimitsDict) (lo up : ℚ)
    (hlim : jd.limits = some ld) (hlo : ld.lower = some lo) (hup : ld.upper = some up) :
    (cjLimitsStep jd l).lower = lo ∧ (cjLimitsStep jd l).upper = up := by
  obtain ⟨lov, upv, ev, vv⟩ := ld
  simp only at hlo hup
  subst hlo hup
  rcases ev with _ | e <;> rcases vv with _ | v <;>
    simp [cjLimitsStep, hlim]

theorem cjLimitsStep_maxEffort (jd : JointDef) (l : Link) (ld : LimitsDict) (e : ℚ)
    (hlim : jd.limits = some ld) (he : ld.effort = some e) :
    getProp (cjLimitsStep jd l).link "joint/maxEffort" = some (.num e) := by
  obtain ⟨lov, upv, ev, vv⟩ := ld
  simp only at he
  subst he
  rcases lov with _ | lo <;> rcases upv with _ | up <;> rcases vv with _ | v <;>
    simp [cjLimitsStep, hlim, getProp_setProp_same,
      getProp_setProp_ne _ "joint/maxSpeed" "joint/maxEffort" _ (by decide)]

theorem cjLimitsStep_effort_err (jd : JointDef) (l : Link) (ld : LimitsDict)
    (hlim : jd.limits = some ld) (he : ld.effort = none) :
    (⟨"Joint limits incomplete for joint " ++ jd.name ++ ". Missing effort.", "ERROR"⟩ ∈
      (cjLimitsStep jd l).logs) := by
  obtain ⟨lov, upv, ev, vv⟩ := ld
  simp only at he
  subst he
  rcases lov with _ | lo <;> rcases upv with _ | up <;> rcases vv with _ | v <;>
    simp [cjLimitsStep, hlim]

theorem cjLimitsStep_maxSpeed (jd : JointDef) (l : Link) (ld : LimitsDict) (v : ℚ)
    (hlim : jd.limits = some ld) (hv : ld.velocity = some v) :
    getProp (cjLimitsStep jd l).link "joint/maxSpeed" = some (.num v) := by
  obtain ⟨lov, upv, ev, vv⟩ := ld
  simp only at hv
  subst hv
  rcases lov with _ | lo <;> rcases upv with _ | up <;> rcases ev with _ | e <;>
    simp [cjLimitsStep, hlim, getProp_setProp_same]

theorem cjLimitsStep_velocity_err (jd : JointDef) (l : Link) (ld : LimitsDict)
    (hlim : jd.limits = some ld) (hv : ld.velocity = none) :
    (⟨"Joint limits incomplete for joint " ++ jd.name ++ ". Missing velocity.", "ERROR"⟩ ∈
      (cjLimitsStep jd l).logs) := by
  obtain ⟨lov, upv, ev, vv⟩ := ld
  simp only at hv
  subst hv
  rcases lov with _ | lo <;> rcases upv with _ | up <;> rcases ev with _ | e <;>
    simp [cjLimitsStep, hlim]

/-- C7: when the limits block (or its lower/upper pair) is absent,
`createJoint` emits a warning diagnostic and proceeds with the sentinel
limits `(-1e-5, 1e-5)`; with joint type revolute this still produces a
full six-axis constraint set (a location constraint enabling all six
translational bounds and a rotation constraint limiting all three
rotational axes, y with the sentinel range), which classifies as
revolute. -/
theorem C7_missing_limits_default (env : Env) (jd : JointDef) (link : Link)
    (hl : link.phobostype = "link")
    (hmiss : match jd.limits with
             | none => True
             | some ld => ld.lower = none ∨ ld.upper = none) :
    (∃ e ∈ (createJoint env jd link).logs, e.level = "WARNING") ∧
    (jd.jtype = "revolute" →
      (∃ lc : LimitLocation,
        getJointConstraint (createJoint env jd link).link "LIMIT_LOCATION" = some (.loc lc) ∧
        lc.use_min_x = true ∧ lc.use_min_y = true ∧ lc.use_min_z = true ∧
        lc.use_max_x = true ∧ lc.use_max_y = true ∧ lc.use_max_z = true) ∧
      (∃ rc : LimitRotation,
        getJointConstraint (createJoint env jd link).link "LIMIT_ROTATION" = some (.rot rc) ∧
        rc.use_limit_x = true ∧ rc.use_limit_y = true ∧ rc.use_limit_z = true ∧
        rc.min_y = -(1 / 100000) ∧ rc.max_y = 1 / 100000) ∧
      (getJointType (createJoint env jd link).link).1 = "revolute") := by
  have hplim : (cjLimitsStep jd (cjAxisStep env jd (if jd.name ≠ link.name then
      setProp link "joint/name" (.str jd.name) else link)).1).link.phobostype = "link" := by
    rw [cjLimitsStep_phobostype, cjAxisStep_phobostype]
    split
    · rw [setProp_phobostype, hl]
    · exact hl
  have hdef := cjLimitsStep_default jd
    (cjAxisStep env jd (if jd.name ≠ link.name then
      setProp link "joint/name" (.str jd.name) else link)).1 hmiss
  simp only [createJoint_eq env jd link hl]
  constructor
  · obtain ⟨e, hme, hlev⟩ := hdef.1
    exact ⟨e, List.mem_append_left _ (List.mem_append_left _ (List.mem_append_right _ hme)),
      hlev⟩
  · intro ht
    have hcon : (applyGenericProps (setJointConstraints env
        (cjLimitsStep jd (cjAxisStep env jd (if jd.name ≠ link.name then
          setProp link "joint/name" (.str jd.name) else link)).1).link jd.jtype
        (cjLimitsStep jd (cjAxisStep env jd (if jd.name ≠ link.name then
          setProp link "joint/name" (.str jd.name) else link)).1).lower
        (cjLimitsStep jd (cjAxisStep env jd (if jd.name ≠ link.name then
          setProp link "joint/name" (.str jd.name) else link)).1).upper
        0 0 none none).link jd.extraProps).constraints =
        (set_revolute { (cjLimitsStep jd (cjAxisStep env jd (if jd.name ≠ link.name then
          setProp link "joint/name" (.str jd.name) else link)).1).link with
            constraints := ([] : List Constraint) }
          (-(1 / 100000)) (1 / 100000)).constraints := by
      rw [applyGenericProps_constraints, sjc_constraints _ _ _ _ _ hplim, ht,
        hdef.2.1, hdef.2.2, sjcDispatch_revolute]
    refine ⟨⟨{ use_min_x := true, use_min_y := true, use_min_z := true,
               use_max_x := true, use_max_y := true, use_max_z := true,
               owner_space := "LOCAL" }, ?_, rfl, rfl, rfl, rfl, rfl, rfl⟩,
      ⟨{ use_limit_x := true, use_limit_y := true, use_limit_z := true,
         min_y := -(1 / 100000), max_y := 1 / 100000,
         owner_space := "LOCAL" }, ?_, rfl, rfl, rfl, rfl, rfl⟩, ?_⟩
    · unfold getJointConstraint
      rw [hcon]
      rfl
    · unfold getJointConstraint
      rw [hcon]
      rfl
    · unfold getJointType
      rw [hcon]
      have h1 : ((-(1 / 100000) : ℚ) == 0) = false := by
        have : (-(1 / 100000) : ℚ) ≠ 0 := by norm_num
        simp [this]
      simp [set_revolute, addConstraint, getJointTypeOf, clocList, crotList, h1]

/-- Witness for C7 at a revolute joint definition with no limits block. -/
theorem C7_missing_limits_default_witness :
    link0.phobostype = "link" ∧
    (∃ e ∈ (createJoint env0 jd7 link0).logs, e.level = "WARNING") ∧
    (getJointType (createJoint env0 jd7 link0).link).1 = "revolute" :=
  ⟨rfl, (C7_missing_limits_default env0 jd7 link0 rfl trivial).1,
   ((C7_missing_limits_default env0 jd7 link0 rfl trivial).2 rfl).2.2⟩

/-- C8: when the limits block is present, effort and velocity are each
stored under `joint/maxEffort` resp. `joint/maxSpeed` when present and
each missing one is individually reported as an error; the operation
still proceeds to apply the constraints (the `joint/type` tag is
written, and for a revolute type the present lower/upper pair lands in
the rotation constraint). -/
theorem C8_limits_fields (env : Env) (jd : JointDef) (link : Link) (ld : LimitsDict)
    (hl : link.phobostype = "link") (hlim : jd.limits = some ld) :
    (∀ e, ld.effort = some e →
      getProp (createJoint env jd link).link "joint/maxEffort" = some (.num e)) ∧
    (ld.effort = none →
      ⟨"Joint limits incomplete for joint " ++ jd.name ++ ". Missing effort.", "ERROR"⟩ ∈
        (createJoint env jd link).logs) ∧
    (∀ v, ld.velocity = some v →
      getProp (createJoint env jd link).link "joint/maxSpeed" = some (.num v)) ∧
    (ld.velocity = none →
      ⟨"Joint limits incomplete for joint " ++ jd.name ++ ". Missing velocity.", "ERROR"⟩ ∈
        (createJoint env jd link).logs) ∧
    getProp (createJoint env jd link).link "joint/type" = some (.str jd.jtype) ∧
    (∀ lo up, ld.lower = some lo → ld.upper = some up → jd.jtype = "revolute" →
      ∃ rc : LimitRotation,
        getJointConstraint (createJoint env jd link).link "LIMIT_ROTATION" = some (.rot rc) ∧
        rc.min_y = lo ∧ rc.max_y = up) := by
  have hplim : (cjLimitsStep jd (cjAxisStep env jd (if jd.name ≠ link.name then
      setProp link "joint/name" (.str jd.name) else link)).1).link.phobostype = "link" := by
    rw [cjLimitsStep_phobostype, cjAxisStep_phobostype]
    split
    · rw [setProp_phobostype, hl]
    · exact hl
  simp only [createJoint_eq env jd link hl]
  refine ⟨?_, ?_, ?_, ?_, ?_, ?_⟩
  · intro e he
    rw [applyGenericProps_getProp _ _ _ (by decide),
      sjc_getProp_other _ _ _ _ _ _ hplim (by decide), getProp_constraints_irrel,
      cjLimitsStep_maxEffort jd _ ld e hlim he]
  · intro he
    exact List.mem_append_left _ (List.mem_append_left _ (List.mem_append_right _
      (cjLimitsStep_effort_err jd _ ld hlim he)))
  · intro v hv
    rw [applyGenericProps_getProp _ _ _ (by decide),
      sjc_getProp_other _ _ _ _ _ _ hplim (by decide), getProp_constraints_irrel,
      cjLimitsStep_maxSpeed jd _ ld v hlim hv]
  · intro hv
    exact List.mem_append_left _ (List.mem_append_left _ (List.mem_append_right _
      (cjLimitsStep_velocity_err jd _ ld hlim hv)))
  · rw [applyGenericProps_getProp _ _ _ (by decide), sjc_getProp_type _ _ _ _ _ hplim]
  · intro lo up hlo hup ht
    have hvals := cjLimitsStep_vals jd
      (cjAxisStep env jd (if jd.name ≠ link.name then
        setProp link "joint/name" (.str jd.name) else link)).1 ld lo up hlim hlo hup
    refine ⟨{ use_limit_x := true, use_limit_y := true, use_limit_z := true,
              min_y := lo, max_y := up, owner_space := "LOCAL" }, ?_, rfl, rfl⟩
    unfold getJointConstraint
    rw [applyGenericProps_constraints, sjc_constraints _ _ _ _ _ hplim, ht,
      hvals.1, hvals.2, sjcDispatch_revolute]
    rfl

/-- Witness for C8 at a revolute definition with limits carrying
effort 50 and no velocity. -/
theorem C8_limits_fields_witness :
    (link0.phobostype = "link" ∧
      jd8.limits = some ⟨some (-1), some 1, some 50, none⟩) ∧
    getProp (createJoint env0 jd8 link0).link "joint/maxEffort" = some (.num 50) ∧
    (⟨"Joint limits incomplete for joint " ++ jd8.name ++ ". Missing velocity.", "ERROR"⟩ ∈
      (createJoint env0 jd8 link0).logs) ∧
    getProp (createJoint env0 jd8 link0).link "joint/type" = some (.str "revolute") ∧
    (∃ rc : LimitRotation,
      getJointConstraint (createJoint env0 jd8 link0).link "LIMIT_ROTATION" = some (.rot rc) ∧
      rc.min_y = -1 ∧ rc.max_y = 1) := by
  have h := C8_limits_fields env0 jd8 link0 ⟨some (-1), some 1, some 50, none⟩ rfl rfl
  exact ⟨⟨rfl, rfl⟩, h.1 50 rfl, h.2.2.2.1 rfl, h.2.2.2.2.1,
    h.2.2.2.2.2 (-1) 1 rfl rfl rfl⟩
